import Mathlib

/-
  Verification development for the Plate Section Statistics and Normalization
  Engine of the Plate-Analyzer repository.

  The embedding follows src/analysis.py (functions analyze_plate and
  analyze_all_plates) and src/core/analysis/analyzer.py.  Grid readings are
  IEEE floats in the source; here they are modelled as exact rationals plus an
  explicit NaN constructor, with numpy semantics for arithmetic on NaN
  (NaN propagates through +, -, *, /; NaN != 0 is true; NaN < 0 is false;
  0 * NaN = NaN).  Standard deviations introduce square roots, so reported
  error values live over the reals; everything below the final sqrt is
  computable rational arithmetic.
-/

namespace PlateAnalyzer

/-- A float-like value: either NaN or an exact number. -/
inductive Fl (α : Type) where
  | nan : Fl α
  | val : α → Fl α
deriving DecidableEq

namespace Fl

def add {α : Type} [Add α] : Fl α → Fl α → Fl α
  | val a, val b => val (a + b)
  | _, _ => nan

def sub {α : Type} [Sub α] : Fl α → Fl α → Fl α
  | val a, val b => val (a - b)
  | _, _ => nan

def mul {α : Type} [Mul α] : Fl α → Fl α → Fl α
  | val a, val b => val (a * b)
  | _, _ => nan

def div {α : Type} [Div α] : Fl α → Fl α → Fl α
  | val a, val b => val (a / b)
  | _, _ => nan

instance {α : Type} [Add α] : Add (Fl α) := ⟨Fl.add⟩

instance {α : Type} [Sub α] : Sub (Fl α) := ⟨Fl.sub⟩

instance {α : Type} [Mul α] : Mul (Fl α) := ⟨Fl.mul⟩

instance {α : Type} [Div α] : Div (Fl α) := ⟨Fl.div⟩

/-- True exactly on the NaN constructor (the isnan test of numpy). -/
def isNan {α : Type} : Fl α → Bool
  | nan => true
  | val _ => false

/-- Drop the NaN case (used to model nan-ignoring reductions). -/
def toOption {α : Type} : Fl α → Option α
  | nan => none
  | val a => some a

end Fl

/-- Embed a rational float value into the reals. -/
def castR : Fl ℚ → Fl ℝ
  | Fl.nan => Fl.nan
  | Fl.val q => Fl.val (q : ℝ)

/-- np.sqrt on a float value: NaN maps to NaN. -/
noncomputable def flSqrt : Fl ℝ → Fl ℝ
  | Fl.nan => Fl.nan
  | Fl.val x => Fl.val (Real.sqrt x)

/-- The finite (non-NaN) entries of a list of float values. -/
def finites (l : List (Fl ℚ)) : List ℚ :=
  l.filterMap Fl.toOption

/-- Number of NaN entries of a list of float values. -/
def countNan : List (Fl ℚ) → ℕ
  | [] => 0
  | Fl.nan :: t => countNan t + 1
  | Fl.val _ :: t => countNan t

/-- Population mean of a list of rationals (sum divided by length). -/
def listMean (l : List ℚ) : ℚ := l.sum / l.length

/-- Population variance of a list of rationals, the square of np.std with
its default ddof of zero. -/
def popVar (l : List ℚ) : ℚ :=
  (l.map fun x => (x - listMean l) * (x - listMean l)).sum / l.length

/-- np.nanmean: the mean of the non-NaN entries, NaN when there are none. -/
def nanmeanQ (l : List (Fl ℚ)) : Fl ℚ :=
  if finites l = [] then Fl.nan else Fl.val (listMean (finites l))

/-- Population variance over the non-NaN entries, NaN when there are none;
np.nanstd is the square root of this quantity. -/
def nanvarQ (l : List (Fl ℚ)) : Fl ℚ :=
  if finites l = [] then Fl.nan else Fl.val (popVar (finites l))

/-- np.nanstd of a list of float values, as a real-valued float. -/
noncomputable def nanstdR (l : List (Fl ℚ)) : Fl ℝ :=
  flSqrt (castR (nanvarQ l))

/-- Standard error of the mean as used throughout analyze_all_plates:
np.nanstd(valid) / np.sqrt(len(valid)).  The divisor counts every entry of
the list, NaN entries included. -/
noncomputable def stderrOf (l : List (Fl ℚ)) : Fl ℝ :=
  nanstdR l / Fl.val (Real.sqrt (l.length : ℝ))

/-- An 8 by 12 plate of float readings (one well per entry).  Masks are grids
too: 0/1 numeric arrays multiplied into the data, exactly as in the source. -/
abbrev Grid := Fin 8 → Fin 12 → Fl ℚ

/-- Elementwise product of a grid with a mask, the data * mask idiom of
analysis.py. -/
def maskMul (g m : Grid) : Grid := fun r c => g r c * m r c

/-- All 96 well coordinates in row-major order. -/
def allCells : List (Fin 8 × Fin 12) :=
  (List.finRange 8).flatMap fun r => (List.finRange 12).map fun c => (r, c)

/-- The values of a grid at a list of coordinates. -/
def gridValues (g : Grid) (cells : List (Fin 8 × Fin 12)) : List (Fl ℚ) :=
  cells.map fun rc => g rc.1 rc.2

/-- The valid filter of analysis.py: keep the entries different from exactly
zero (data[data != 0]).  NaN entries pass, since NaN != 0 holds in numpy. -/
def dropZeros (l : List (Fl ℚ)) : List (Fl ℚ) :=
  l.filter fun x => decide (x ≠ Fl.val 0)

/-- A rectangular section (r1, c1, r2, c2), both corners inclusive, as the
tuples held in the sections list of analysis.py. -/
abbrev PlateSection := ℕ × ℕ × ℕ × ℕ

/-- The coordinates selected by the numpy slice masked_data[r1:r2+1, c1:c2+1]
in row-major order; indices past the grid bounds are silently truncated,
exactly as python slicing does. -/
def sectionCells (s : PlateSection) : List (Fin 8 × Fin 12) :=
  (List.finRange 8).flatMap fun r =>
    (List.finRange 12).filterMap fun c =>
      if s.1 ≤ r.val ∧ r.val ≤ s.2.2.1 ∧ s.2.1 ≤ c.val ∧ c.val ≤ s.2.2.2 then
        some (r, c)
      else none

/-- The index clamping of analyze_all_plates (analysis.py lines 382 and 383):
r1, r2 = max(0, min(r, 7)) and c1, c2 = max(0, min(c, 11)); the max with 0 is
the identity on naturals. -/
def clampSec (s : PlateSection) : PlateSection :=
  (min s.1 7, min s.2.1 11, min s.2.2.1 7, min s.2.2.2 11)

/-- Negative control readings: grid times control mask, flattened, with the
exact zeros dropped (analysis.py lines 115 and 116). -/
def validCtrls (data cm : Grid) : List (Fl ℚ) :=
  dropZeros (gridValues (maskMul data cm) allCells)

/-- The neg_ctrl_avg output: NaN unless subtraction is on and some control
value survived the non-zero filter, else the nanmean of the survivors
(analysis.py lines 111 to 118). -/
def negCtrlAvg (data cm : Grid) (subtract : Bool) : Fl ℚ :=
  if subtract ∧ validCtrls data cm ≠ [] then nanmeanQ (validCtrls data cm)
  else Fl.nan

/-- Clamp a negative reading to zero (data[data < 0] = 0); NaN compares false
with 0, so it is left alone. -/
def clampNeg (x : Fl ℚ) : Fl ℚ :=
  match x with
  | Fl.val q => if q < 0 then Fl.val 0 else Fl.val q
  | Fl.nan => Fl.nan

/-- Corrected grid of analyze_plate (analysis.py lines 113 to 123): when a
valid control baseline exists, subtract its mean from every well and clamp
negative results to zero; otherwise the data is returned unchanged. -/
def plateCorrected (data cm : Grid) (subtract : Bool) : Grid :=
  if subtract ∧ validCtrls data cm ≠ [] then
    fun r c => clampNeg (data r c - nanmeanQ (validCtrls data cm))
  else data

/-- The neg_ctrl_std output of analyze_plate (analysis.py line 119): the
population nanstd of the valid control readings, not divided by sqrt(n). -/
noncomputable def plateCtrlStd (data cm : Grid) (subtract : Bool) : Fl ℝ :=
  if subtract ∧ validCtrls data cm ≠ [] then nanstdR (validCtrls data cm)
  else Fl.nan

/-- Corrected grid of analyze_all_plates (analysis.py lines 328 to 349): the
control mean is subtracted but negative values are NOT clamped there. -/
def allPlatesCorrected (data cm : Grid) (subtract : Bool) : Grid :=
  if subtract ∧ validCtrls data cm ≠ [] then
    fun r c => data r c - nanmeanQ (validCtrls data cm)
  else data

/-- The neg_ctrl_std output of analyze_all_plates (analysis.py line 339):
the standard error nanstd / sqrt(n) of the valid control readings. -/
noncomputable def allPlatesCtrlSE (data cm : Grid) (subtract : Bool) : Fl ℝ :=
  if subtract ∧ validCtrls data cm ≠ [] then stderrOf (validCtrls data cm)
  else Fl.nan

/-- Values of one section of the masked grid surviving the non-zero filter
(analysis.py lines 134 to 137). -/
def sectionValid (masked : Grid) (s : PlateSection) : List (Fl ℚ) :=
  dropZeros (gridValues masked (sectionCells s))

/-- Per-section mean (analysis.py lines 138, 139 and 154): nanmean of the
valid values when any survive, NaN otherwise. -/
def sectionMean (masked : Grid) (s : PlateSection) : Fl ℚ :=
  if sectionValid masked s ≠ [] then nanmeanQ (sectionValid masked s)
  else Fl.nan

/-- Per-section reported error (analysis.py lines 140 to 155 and 393 to 413):
with valid values, the standard error nanstd / sqrt(n); if controls were
subtracted and their spread is not NaN, the error is propagated as
sqrt(sampleSE^2 + ctrlSpread^2); with no valid values the result is NaN. -/
noncomputable def sectionSE (masked : Grid) (s : PlateSection) (subtract : Bool)
    (cse : Fl ℝ) : Fl ℝ :=
  if sectionValid masked s ≠ [] then
    if subtract ∧ cse.isNan = false then
      flSqrt (stderrOf (sectionValid masked s) * stderrOf (sectionValid masked s)
                + cse * cse)
    else stderrOf (sectionValid masked s)
  else Fl.nan

/-- Section mean of the analyze_all_plates path, with the clamped indices. -/
def allPlatesSectionMean (data mask cm : Grid) (subtract : Bool)
    (s : PlateSection) : Fl ℚ :=
  sectionMean (maskMul (allPlatesCorrected data cm subtract) mask) (clampSec s)

/-- Section reported error of the analyze_all_plates path. -/
noncomputable def allPlatesSectionSE (data mask cm : Grid) (subtract : Bool)
    (s : PlateSection) : Fl ℝ :=
  sectionSE (maskMul (allPlatesCorrected data cm subtract) mask) (clampSec s)
    subtract (allPlatesCtrlSE data cm subtract)

/-- One aggregate cell of the results table: a section mean together with its
reported standard error (the S-column and the matching std column). -/
structure Agg where
  mean : Fl ℚ
  se : Fl ℝ

/-- One timepoint row of the results table, indexed by section number
(0 stands for the column named S1). -/
abbrev Row := ℕ → Agg

/-- Percent-of-baseline transform of a single aggregate (analysis.py lines
484 to 500): with a baseline that is neither zero nor NaN, the mean becomes
(value / base - 1) * 100 and the error (error / base) * 100; otherwise both
columns are set to NaN for the whole series. -/
noncomputable def percentAgg (base : Fl ℚ) (a : Agg) : Agg :=
  if base ≠ Fl.val 0 ∧ base ≠ Fl.nan then
    { mean := (a.mean / base - Fl.val 1) * Fl.val 100
      se := a.se / castR base * Fl.val 100 }
  else { mean := Fl.nan, se := Fl.nan }

/-- Percent-of-baseline normalization of the whole series (analysis.py lines
477 to 503): the baseline of a section is its value in the first row, and
every row of the series is rewritten against it.  An empty series is left
empty, matching the len(res_df) > 0 guard. -/
noncomputable def percentSeries : List Row → List Row
  | [] => []
  | first :: rest =>
      (first :: rest).map fun row j => percentAgg (first j).mean (row j)

/-- Ratio-to-S1 transform of one timepoint row (analysis.py lines 441 to
474): when the S1 mean of the row is neither NaN nor zero, every other
section is divided by it, S1 itself becomes mean 1 with a relative error,
and otherwise the row is left exactly as the prior stage computed it. -/
noncomputable def ratioRow (row : Row) : Row :=
  if (row 0).mean ≠ Fl.nan ∧ (row 0).mean ≠ Fl.val 0 then
    fun j =>
      if j = 0 then
        { mean := Fl.val 1, se := (row 0).se / castR ((row 0).mean) }
      else
        { mean := (row j).mean / (row 0).mean
          se := (row j).se / castR ((row 0).mean) }
  else row

/-- Ratio-to-reference normalization of the whole series: each timepoint row
is rewritten independently of every other row. -/
noncomputable def ratioSeries (s : List Row) : List Row :=
  s.map ratioRow

/-- The callers DataFrame cell for one plate-assay timepoint: the raw grid
the persistence layer owns. -/
structure PlateStore where
  raw : Grid

/-- Processing of one timepoint of analyze_plate (analysis.py lines 107 to
159): the first action is data = row[...].copy() (line 108), so the baseline
subtraction and clamping write only the private copy; the function returns
the per-timepoint outputs together with the callers store, which is handed
back untouched. -/
noncomputable def processTimepoint (st : PlateStore) (mask cm : Grid)
    (subtract : Bool) (secs : List PlateSection) :
    (Fl ℚ × Fl ℝ × List (Fl ℚ × Fl ℝ)) × PlateStore :=
  let data := st.raw
  let masked := maskMul (plateCorrected data cm subtract) mask
  ((negCtrlAvg data cm subtract, plateCtrlStd data cm subtract,
    secs.map fun s =>
      (sectionMean masked s, sectionSE masked s subtract (plateCtrlStd data cm subtract))),
   st)

/-- The regular-mode loop of analyze_plate over every timepoint of one
plate-assay key: the list of stored grids is read, each through its private
copy, and the store emerges unchanged. -/
noncomputable def analyzeSeries (store : List Grid) (mask cm : Grid)
    (subtract : Bool) (secs : List PlateSection) :
    List (Fl ℚ × Fl ℝ × List (Fl ℚ × Fl ℝ)) × List Grid :=
  (store.map fun g => (processTimepoint ⟨g⟩ mask cm subtract secs).1, store)

/-- Set the inclusion-mask bit of one well to zero. -/
def updateMask (m : Grid) (w : Fin 8 × Fin 12) : Grid :=
  fun r c => if r = w.1 ∧ c = w.2 then Fl.val 0 else m r c

/-- The E2E grid of the spec: all wells read 100 except the 4 by 4 area of
rows 0 to 3 and columns 0 to 3, whose rows hold 120, 110, 100 and 90. -/
def e2eGrid : Grid := fun r c =>
  if r.val ≤ 3 ∧ c.val ≤ 3 then Fl.val (120 - 10 * (r.val : ℚ)) else Fl.val 100

/-- The all-ones inclusion mask. -/
def onesGrid : Grid := fun _ _ => Fl.val 1

/-- The all-zero control mask. -/
def zerosGrid : Grid := fun _ _ => Fl.val 0

/-- A grid of strictly positive readings used as a concrete witness input. -/
def posGrid : Grid := fun r c => Fl.val ((r.val : ℚ) + (c.val : ℚ) + 1)

/-- Witness grid for error propagation: section row 0 columns 0 to 3 reads
10; sixteen control wells on rows 4 and 5 columns 0 to 7 read 6 and -2, so
that their mean is 2 and their standard error exactly 1. -/
def propGrid : Grid := fun r c =>
  if r.val = 0 ∧ c.val ≤ 3 then Fl.val 10
  else if r.val = 4 ∧ c.val ≤ 7 then Fl.val 6
  else if r.val = 5 ∧ c.val ≤ 7 then Fl.val (-2)
  else Fl.val 0

/-- Control mask matching propGrid: rows 4 and 5, columns 0 to 7. -/
def propCtrlMask : Grid := fun r c =>
  if (r.val = 4 ∨ r.val = 5) ∧ c.val ≤ 7 then Fl.val 1 else Fl.val 0

/-- Inclusion mask matching propGrid: only row 0 columns 0 to 3. -/
def propMask : Grid := fun r c =>
  if r.val = 0 ∧ c.val ≤ 3 then Fl.val 1 else Fl.val 0

/-- A mask excluding the whole of row 0. -/
def rowZeroExcluded : Grid := fun r _ =>
  if r.val = 0 then Fl.val 0 else Fl.val 1

/-- A mask excluding only the single well (0, 0). -/
def cornerExcluded : Grid := fun r c =>
  if r.val = 0 ∧ c.val = 0 then Fl.val 0 else Fl.val 1

/-- Witness grid for NaN counting: well (0,0) reads NaN, well (0,1) reads 5,
everything else 0. -/
def nanGrid : Grid := fun r c =>
  if r.val = 0 ∧ c.val = 0 then Fl.nan
  else if r.val = 0 ∧ c.val = 1 then Fl.val 5
  else Fl.val 0

/-- Witness grid whose row 0 columns 0 and 1 are both NaN. -/
def allNanGrid : Grid := fun r c =>
  if r.val = 0 ∧ c.val ≤ 1 then Fl.nan else Fl.val 0

namespace Fl

@[simp] theorem val_add_val {α : Type} [Add α] (a b : α) :
    (val a : Fl α) + val b = val (a + b) := rfl

@[simp] theorem nan_add {α : Type} [Add α] (x : Fl α) : (nan : Fl α) + x = nan := by
  cases x <;> rfl

@[simp] theorem add_nan {α : Type} [Add α] (x : Fl α) : x + (nan : Fl α) = nan := by
  cases x <;> rfl

@[simp] theorem val_sub_val {α : Type} [Sub α] (a b : α) :
    (val a : Fl α) - val b = val (a - b) := rfl

@[simp] theorem nan_sub {α : Type} [Sub α] (x : Fl α) : (nan : Fl α) - x = nan := by
  cases x <;> rfl

@[simp] theorem sub_nan {α : Type} [Sub α] (x : Fl α) : x - (nan : Fl α) = nan := by
  cases x <;> rfl

@[simp] theorem val_mul_val {α : Type} [Mul α] (a b : α) :
    (val a : Fl α) * val b = val (a * b) := rfl

@[simp] theorem nan_mul {α : Type} [Mul α] (x : Fl α) : (nan : Fl α) * x = nan := by
  cases x <;> rfl

@[simp] theorem mul_nan {α : Type} [Mul α] (x : Fl α) : x * (nan : Fl α) = nan := by
  cases x <;> rfl

@[simp] theorem val_div_val {α : Type} [Div α] (a b : α) :
    (val a : Fl α) / val b = val (a / b) := rfl

@[simp] theorem nan_div {α : Type} [Div α] (x : Fl α) : (nan : Fl α) / x = nan := by
  cases x <;> rfl

@[simp] theorem div_nan {α : Type} [Div α] (x : Fl α) : x / (nan : Fl α) = nan := by
  cases x <;> rfl

@[simp] theorem isNan_nan {α : Type} : (nan : Fl α).isNan = true := rfl

@[simp] theorem isNan_val {α : Type} (a : α) : (val a : Fl α).isNan = false := rfl

end Fl

@[simp] theorem castR_nan : castR Fl.nan = Fl.nan := rfl

@[simp] theorem castR_val (q : ℚ) : castR (Fl.val q) = Fl.val (q : ℝ) := rfl

@[simp] theorem flSqrt_nan : flSqrt Fl.nan = Fl.nan := rfl

@[simp] theorem flSqrt_val (x : ℝ) : flSqrt (Fl.val x) = Fl.val (Real.sqrt x) := rfl

@[simp] theorem finites_nil : finites [] = [] := rfl

@[simp] theorem finites_cons_nan (t : List (Fl ℚ)) :
    finites (Fl.nan :: t) = finites t := rfl

@[simp] theorem finites_cons_val (q : ℚ) (t : List (Fl ℚ)) :
    finites (Fl.val q :: t) = q :: finites t := rfl

/-- When the nan-aware variance evaluates to a finite number, the standard
error of the mean is the square root of that variance divided by the square
root of the full (NaN entries included) count. -/
theorem stderrOf_eq {l : List (Fl ℚ)} {q : ℚ} (h : nanvarQ l = Fl.val q) :
    stderrOf l = Fl.val (Real.sqrt (q : ℝ) / Real.sqrt (l.length : ℝ)) := by
  simp [stderrOf, nanstdR, h]

/-- With no finite entries at all, the reported standard error is NaN. -/
theorem stderrOf_of_no_finites {l : List (Fl ℚ)} (h : finites l = []) :
    stderrOf l = Fl.nan := by
  simp [stderrOf, nanstdR, nanvarQ, h]

/-- Without the control subtraction flag the propagation branch is dead and
the reported error is the plain standard error of the section. -/
theorem sectionSE_no_subtract (masked : Grid) (s : PlateSection) (cse : Fl ℝ) :
    sectionSE masked s false cse
      = if sectionValid masked s ≠ [] then stderrOf (sectionValid masked s)
        else Fl.nan := by
  simp [sectionSE]

/-- Every list of float values splits into its finite entries and its NaN
entries; nothing else exists. -/
theorem length_eq_finites_add_countNan (l : List (Fl ℚ)) :
    l.length = (finites l).length + countNan l := by
  induction l with
  | nil => rfl
  | cons a t ih =>
    cases a with
    | nan => simp [countNan, ih]; omega
    | val q => simp [countNan, ih]; omega

/-- If every entry of a list is either exactly zero or NaN, the non-zero
filter leaves only NaN entries, so no finite value survives. -/
theorem finites_dropZeros_nil {l : List (Fl ℚ)}
    (h : ∀ x ∈ l, x = Fl.val 0 ∨ x = Fl.nan) :
    finites (dropZeros l) = [] := by
  induction l with
  | nil => rfl
  | cons a t ih =>
    have ht : ∀ x ∈ t, x = Fl.val 0 ∨ x = Fl.nan := fun x hx => h x (List.mem_cons_of_mem _ hx)
    rcases h a (List.mem_cons_self a t) with ha | ha
    · subst ha
      simp [dropZeros] at ih ⊢
      exact ih ht
    · subst ha
      simp [dropZeros] at ih ⊢
      exact ih ht

/-- The sixteen e2e section values have population variance 125 under the
nan-aware variance: four samples each of 120, 110, 100 and 90 around the
mean 105. -/
theorem e2e_var_eval :
    nanvarQ (sectionValid (maskMul (allPlatesCorrected e2eGrid zerosGrid false) onesGrid)
        (clampSec (0, 0, 3, 3))) = Fl.val 125 := by
  with_unfolding_all decide

/-- Sixteen values survive the non-zero filter in the e2e section. -/
theorem e2e_len_eval :
    (sectionValid (maskMul (allPlatesCorrected e2eGrid zerosGrid false) onesGrid)
        (clampSec (0, 0, 3, 3))).length = 16 := by
  with_unfolding_all decide

/-- The reported e2e standard error evaluates to sqrt(125) / 4, that is the
population standard deviation of the sixteen section values divided by the
square root of sixteen. -/
theorem e2e_se_eval :
    allPlatesSectionSE e2eGrid onesGrid zerosGrid false (0, 0, 3, 3)
      = Fl.val (Real.sqrt 125 / 4) := by
  have hne : sectionValid (maskMul (allPlatesCorrected e2eGrid zerosGrid false) onesGrid)
      (clampSec (0, 0, 3, 3)) ≠ [] := by
    with_unfolding_all decide
  have h16 : Real.sqrt ((16 : ℕ) : ℝ) = 4 := by
    rw [show ((16 : ℕ) : ℝ) = (4 : ℝ) ^ 2 by norm_num]
    exact Real.sqrt_sq (by norm_num)
  unfold allPlatesSectionSE
  rw [sectionSE_no_subtract, if_pos hne, stderrOf_eq e2e_var_eval, e2e_len_eval, h16]
  norm_num

/-- Claim C1, counterexample: on the e2e grid the code reports the standard
error sqrt(125) / 4, which is below 3, while the formula asserted by the
claim, the standard deviation of the list [120, 110, 100, 90] divided by
sqrt(4), evaluates to sqrt(125) / 2, which is above 5; the claimed value of
about 6.455 is met by neither, so the claimed equation is false. -/
theorem c1_counterexample :
    allPlatesSectionSE e2eGrid onesGrid zerosGrid false (0, 0, 3, 3)
        = Fl.val (Real.sqrt 125 / 4)
      ∧ Real.sqrt 125 / 4 < 3
      ∧ stderrOf [Fl.val 120, Fl.val 110, Fl.val 100, Fl.val 90]
          = Fl.val (Real.sqrt 125 / 2)
      ∧ allPlatesSectionSE e2eGrid onesGrid zerosGrid false (0, 0, 3, 3)
          ≠ stderrOf [Fl.val 120, Fl.val 110, Fl.val 100, Fl.val 90] := by
  have hvar4 : nanvarQ [Fl.val 120, Fl.val 110, Fl.val 100, Fl.val 90] = Fl.val 125 := by
    with_unfolding_all decide
  have h4 : Real.sqrt ((4 : ℝ)) = 2 := by
    rw [show ((4 : ℝ)) = (2 : ℝ) ^ 2 by norm_num]
    exact Real.sqrt_sq (by norm_num)
  have hspec : stderrOf [Fl.val 120, Fl.val 110, Fl.val 100, Fl.val 90]
      = Fl.val (Real.sqrt 125 / 2) := by
    rw [stderrOf_eq hvar4]
    norm_num [h4]
  have hlt : Real.sqrt 125 / 4 < 3 := by
    rw [div_lt_iff₀ (by norm_num : (0 : ℝ) < 4)]
    exact (Real.sqrt_lt' (by norm_num)).mpr (by norm_num)
  have hneq : Real.sqrt 125 / 4 ≠ Real.sqrt 125 / 2 :=
    ne_of_lt (div_lt_div_of_pos_left (Real.sqrt_pos.mpr (by norm_num))
      (by norm_num) (by norm_num))
  refine ⟨e2e_se_eval, hlt, hspec, ?_⟩
  rw [e2e_se_eval, hspec]
  intro h
  exact hneq (Fl.val.inj h)

/-- Claim C1, amended: on the e2e grid (inclusion mask all ones, control
mask all zero, subtract false) the aggregation yields S1 mean 105 and S1
standard error equal to the population standard deviation of the sixteen
section values divided by sqrt(16), that is sqrt(125) / 4, roughly 2.795. -/
theorem c1_e2e_scenario :
    allPlatesSectionMean e2eGrid onesGrid zerosGrid false (0, 0, 3, 3) = Fl.val 105
      ∧ allPlatesSectionSE e2eGrid onesGrid zerosGrid false (0, 0, 3, 3)
          = Fl.val (Real.sqrt 125 / 4) := by
  constructor
  · with_unfolding_all decide
  · exact e2e_se_eval

/-- Claim C2: whenever subtraction is on, the control standard error is not
NaN and the section has surviving values, the reported section error is the
root of the sum of the squares of the section standard error and the control
standard error. -/
theorem c2_error_propagation (data mask cm : Grid) (s : PlateSection)
    (hc : (allPlatesCtrlSE data cm true).isNan = false)
    (hn : sectionValid (maskMul (allPlatesCorrected data cm true) mask) (clampSec s) ≠ []) :
    allPlatesSectionSE data mask cm true s
      = flSqrt
          (stderrOf (sectionValid (maskMul (allPlatesCorrected data cm true) mask) (clampSec s))
              * stderrOf (sectionValid (maskMul (allPlatesCorrected data cm true) mask) (clampSec s))
            + allPlatesCtrlSE data cm true * allPlatesCtrlSE data cm true) := by
  unfold allPlatesSectionSE sectionSE
  rw [if_pos hn, if_pos ⟨rfl, hc⟩]

/-- Claim C2, witness: on propGrid the sixteen control wells have mean 2 and
standard error exactly 1, the corrected section values are [8, 8, 8, 8], and
the propagated section error is sqrt(0 + 1) = 1. -/
theorem c2_witness :
    (allPlatesCtrlSE propGrid propCtrlMask true).isNan = false
      ∧ gridValues (allPlatesCorrected propGrid propCtrlMask true) (sectionCells (0, 0, 0, 3))
          = [Fl.val 8, Fl.val 8, Fl.val 8, Fl.val 8]
      ∧ allPlatesSectionSE propGrid propMask propCtrlMask true (0, 0, 0, 3) = Fl.val 1 := by
  have hvc : validCtrls propGrid propCtrlMask ≠ [] := by
    with_unfolding_all decide
  have hvar : nanvarQ (validCtrls propGrid propCtrlMask) = Fl.val 16 := by
    with_unfolding_all decide
  have hlen : (validCtrls propGrid propCtrlMask).length = 16 := by
    with_unfolding_all decide
  have h16 : Real.sqrt ((16 : ℝ)) = 4 := by
    rw [show ((16 : ℝ)) = (4 : ℝ) ^ 2 by norm_num]
    exact Real.sqrt_sq (by norm_num)
  have hce : allPlatesCtrlSE propGrid propCtrlMask true = Fl.val 1 := by
    unfold allPlatesCtrlSE
    rw [if_pos ⟨rfl, hvc⟩, stderrOf_eq hvar, hlen]
    norm_num [h16]
  have hc : (allPlatesCtrlSE propGrid propCtrlMask true).isNan = false := by
    simp [hce]
  have hn : sectionValid (maskMul (allPlatesCorrected propGrid propCtrlMask true) propMask)
      (clampSec (0, 0, 0, 3)) ≠ [] := by
    with_unfolding_all decide
  have hsvar : nanvarQ (sectionValid
      (maskMul (allPlatesCorrected propGrid propCtrlMask true) propMask)
      (clampSec (0, 0, 0, 3))) = Fl.val 0 := by
    with_unfolding_all decide
  have hse : stderrOf (sectionValid
      (maskMul (allPlatesCorrected propGrid propCtrlMask true) propMask)
      (clampSec (0, 0, 0, 3))) = Fl.val 0 := by
    rw [stderrOf_eq hsvar]
    norm_num
  refine ⟨hc, by with_unfolding_all decide, ?_⟩
  rw [c2_error_propagation propGrid propMask propCtrlMask (0, 0, 0, 3) hc hn, hse, hce]
  norm_num [Real.sqrt_one]

/-- Claim C3: percent normalization rewrites every row of the series against
the first-row baseline of each section; a NaN or exactly-zero baseline sends
the section to NaN in every rewritten row, and otherwise the mean becomes
(value / baseline - 1) * 100 and the error (error / baseline) * 100. -/
theorem c3_percent_of_baseline (first : Row) (rest : List Row) (j : ℕ) :
    percentSeries (first :: rest)
        = (first :: rest).map (fun row k => percentAgg (first k).mean (row k))
      ∧ ∀ row : Row,
          if (first j).mean = Fl.nan ∨ (first j).mean = Fl.val 0 then
            percentAgg (first j).mean (row j) = { mean := Fl.nan, se := Fl.nan }
          else
            percentAgg (first j).mean (row j)
              = { mean := ((row j).mean / (first j).mean - Fl.val 1) * Fl.val 100
                  se := (row j).se / castR ((first j).mean) * Fl.val 100 } := by
  refine ⟨rfl, fun row => ?_⟩
  by_cases h : (first j).mean = Fl.nan ∨ (first j).mean = Fl.val 0
  · rw [if_pos h]
    unfold percentAgg
    rw [if_neg]
    tauto
  · rw [if_neg h]
    push_neg at h
    unfold percentAgg
    rw [if_pos ⟨h.2, h.1⟩]

/-- Claim C4: ratio normalization treats each timepoint row independently;
a row whose S1 mean is NaN or exactly zero is left exactly as the prior
stage computed it, and otherwise every non-reference section is divided by
the S1 mean while S1 itself becomes mean 1 with its old error divided by
the same reference value. -/
theorem c4_ratio_to_reference (s : List Row) (row : Row) (j : ℕ) :
    ratioSeries s = s.map ratioRow
      ∧ (if (row 0).mean = Fl.nan ∨ (row 0).mean = Fl.val 0 then
          ratioRow row = row
        else
          ratioRow row j
            = if j = 0 then
                { mean := Fl.val 1, se := (row 0).se / castR ((row 0).mean) }
              else
                { mean := (row j).mean / (row 0).mean
                  se := (row j).se / castR ((row 0).mean) }) := by
  refine ⟨rfl, ?_⟩
  by_cases h : (row 0).mean = Fl.nan ∨ (row 0).mean = Fl.val 0
  · rw [if_pos h]
    unfold ratioRow
    rw [if_neg]
    tauto
  · rw [if_neg h]
    push_neg at h
    unfold ratioRow
    rw [if_pos ⟨h.1, h.2⟩]

/-- Claim C5: with subtraction off, or with no control value surviving the
non-zero filter, the baseline correction of analyze_plate returns the grid
unchanged and reports NaN for both the control mean and the control spread;
the function is total, so no exception can arise. -/
theorem c5_no_correction (data cm : Grid) (subtract : Bool)
    (h : subtract = false ∨ validCtrls data cm = []) :
    plateCorrected data cm subtract = data
      ∧ negCtrlAvg data cm subtract = Fl.nan
      ∧ plateCtrlStd data cm subtract = Fl.nan := by
  have hcond : ¬ (subtract ∧ validCtrls data cm ≠ []) := by
    rcases h with h | h
    · subst h
      simp
    · simp [h]
  refine ⟨?_, ?_, ?_⟩
  · unfold plateCorrected
    rw [if_neg hcond]
  · unfold negCtrlAvg
    rw [if_neg hcond]
  · unfold plateCtrlStd
    rw [if_neg hcond]

/-- Claim C5, witness: concrete no-correction runs, once with subtract off
and once with subtract on against the all-zero control mask, both returning
the grid untouched with NaN control outputs. -/
theorem c5_witness :
    plateCorrected posGrid onesGrid false = posGrid
      ∧ negCtrlAvg posGrid onesGrid false = Fl.nan
      ∧ validCtrls posGrid zerosGrid = []
      ∧ plateCorrected posGrid zerosGrid true = posGrid
      ∧ plateCtrlStd posGrid zerosGrid true = Fl.nan := by
  have hz : validCtrls posGrid zerosGrid = [] := by
    with_unfolding_all decide
  exact ⟨(c5_no_correction posGrid onesGrid false (Or.inl rfl)).1,
    (c5_no_correction posGrid onesGrid false (Or.inl rfl)).2.1,
    hz,
    (c5_no_correction posGrid zerosGrid true (Or.inr hz)).1,
    (c5_no_correction posGrid zerosGrid true (Or.inr hz)).2.2⟩

/-- Claim C6: a section all of whose coordinates carry a zero inclusion-mask
bit aggregates to NaN mean and NaN standard error, whatever the grid, the
subtraction flag and the control spread; totality of the definitions rules
out an exception. -/
theorem c6_excluded_section (corrected mask : Grid) (s : PlateSection)
    (h : ∀ rc ∈ sectionCells s, mask rc.1 rc.2 = Fl.val 0) :
    sectionMean (maskMul corrected mask) s = Fl.nan
      ∧ ∀ (subtract : Bool) (cse : Fl ℝ),
          sectionSE (maskMul corrected mask) s subtract cse = Fl.nan := by
  have hvals : ∀ x ∈ gridValues (maskMul corrected mask) (sectionCells s),
      x = Fl.val 0 ∨ x = Fl.nan := by
    intro x hx
    rcases List.mem_map.mp hx with ⟨rc, hrc, rfl⟩
    unfold maskMul
    rw [h rc hrc]
    cases hcv : corrected rc.1 rc.2 with
    | nan => right; rfl
    | val a => left; simp
  have hfin : finites (sectionValid (maskMul corrected mask) s) = [] :=
    finites_dropZeros_nil hvals
  have hmean : sectionMean (maskMul corrected mask) s = Fl.nan := by
    unfold sectionMean
    by_cases hv : sectionValid (maskMul corrected mask) s ≠ []
    · rw [if_pos hv]
      unfold nanmeanQ
      rw [if_pos hfin]
    · rw [if_neg hv]
  refine ⟨hmean, fun subtract cse => ?_⟩
  have hstd : stderrOf (sectionValid (maskMul corrected mask) s) = Fl.nan :=
    stderrOf_of_no_finites hfin
  unfold sectionSE
  by_cases hv : sectionValid (maskMul corrected mask) s ≠ []
  · rw [if_pos hv]
    by_cases hp : subtract ∧ cse.isNan = false
    · rw [if_pos hp, hstd]
      simp
    · rw [if_neg hp, hstd]
  · rw [if_neg hv]

/-- Claim C6, witness: the whole of row 0 is excluded by rowZeroExcluded, so
the row-0 section aggregates to NaN mean and NaN error on a grid of strictly
positive readings. -/
theorem c6_witness :
    (∀ rc ∈ sectionCells ((0, 0, 0, 11) : PlateSection),
        rowZeroExcluded rc.1 rc.2 = Fl.val 0)
      ∧ sectionMean (maskMul posGrid rowZeroExcluded) (0, 0, 0, 11) = Fl.nan
      ∧ sectionSE (maskMul posGrid rowZeroExcluded) (0, 0, 0, 11) false Fl.nan = Fl.nan := by
  have h : ∀ rc ∈ sectionCells ((0, 0, 0, 11) : PlateSection),
      rowZeroExcluded rc.1 rc.2 = Fl.val 0 := by
    with_unfolding_all decide
  exact ⟨h, (c6_excluded_section posGrid rowZeroExcluded (0, 0, 0, 11) h).1,
    (c6_excluded_section posGrid rowZeroExcluded (0, 0, 0, 11) h).2 false Fl.nan⟩

/-- Claim C7: the control baseline outputs of a timepoint run are identical
under any two inclusion masks, because the baseline is computed from the raw
grid times the control mask before the inclusion mask is ever applied. -/
theorem c7_mask_noninterference (st : PlateStore) (m1 m2 cm : Grid)
    (subtract : Bool) (secs : List PlateSection) :
    (processTimepoint st m1 cm subtract secs).1.1
        = (processTimepoint st m2 cm subtract secs).1.1
      ∧ (processTimepoint st m1 cm subtract secs).1.2.1
          = (processTimepoint st m2 cm subtract secs).1.2.1 :=
  ⟨rfl, rfl⟩

/-- Claim C8: a well whose masked corrected value is exactly zero does not
change any section aggregate when its inclusion-mask bit is cleared, because
the non-zero filter already dropped it; a true zero reading is therefore
indistinguishable from an excluded well. -/
theorem c8_zero_sentinel (corrected mask : Grid) (w : Fin 8 × Fin 12)
    (h : maskMul corrected mask w.1 w.2 = Fl.val 0) :
    maskMul corrected (updateMask mask w) = maskMul corrected mask
      ∧ ∀ (s : PlateSection) (subtract : Bool) (cse : Fl ℝ),
          sectionMean (maskMul corrected (updateMask mask w)) s
              = sectionMean (maskMul corrected mask) s
            ∧ sectionSE (maskMul corrected (updateMask mask w)) s subtract cse
                = sectionSE (maskMul corrected mask) s subtract cse := by
  have hgrid : maskMul corrected (updateMask mask w) = maskMul corrected mask := by
    funext r c
    unfold maskMul updateMask
    unfold maskMul at h
    by_cases hrc : r = w.1 ∧ c = w.2
    · rw [if_pos hrc]
      obtain ⟨hr, hc2⟩ := hrc
      subst hr
      subst hc2
      cases hv : corrected w.1 w.2 with
      | nan =>
        rw [hv] at h
        simp at h
      | val a =>
        rw [hv] at h
        rw [h]
        simp
    · rw [if_neg hrc]
  exact ⟨hgrid, fun s subtract cse => by rw [hgrid]; exact ⟨rfl, rfl⟩⟩

/-- Claim C8, witness: well (0, 0) of posGrid is excluded by cornerExcluded,
so its masked value is exactly zero, and clearing that very bit changes
neither the masked grid nor the aggregate of the full-plate section. -/
theorem c8_witness :
    maskMul posGrid cornerExcluded (0 : Fin 8) (0 : Fin 12) = Fl.val 0
      ∧ maskMul posGrid (updateMask cornerExcluded ((0 : Fin 8), (0 : Fin 12)))
          = maskMul posGrid cornerExcluded
      ∧ sectionMean (maskMul posGrid (updateMask cornerExcluded ((0 : Fin 8), (0 : Fin 12))))
            (0, 0, 7, 11)
          = sectionMean (maskMul posGrid cornerExcluded) (0, 0, 7, 11) := by
  have h : maskMul posGrid cornerExcluded (0 : Fin 8) (0 : Fin 12) = Fl.val 0 := by
    with_unfolding_all decide
  exact ⟨h, (c8_zero_sentinel posGrid cornerExcluded ((0 : Fin 8), (0 : Fin 12)) h).1,
    ((c8_zero_sentinel posGrid cornerExcluded ((0 : Fin 8), (0 : Fin 12)) h).2
      (0, 0, 7, 11) false Fl.nan).1⟩

/-- Claim C9: the analysis loop reads every stored grid through a private
copy (the data = row.copy() of analysis.py line 108), so the list of grids
held by the caller is returned exactly as it went in. -/
theorem c9_frame_property (store : List Grid) (mask cm : Grid) (subtract : Bool)
    (secs : List PlateSection) :
    (analyzeSeries store mask cm subtract secs).2 = store := rfl

/-- Claim C10: a NaN reading passes the non-zero validity filter and is
counted in n, the divisor of the standard error, while nanmean and nanstd
ignore it; a section whose surviving values are all NaN reaches the
non-empty branch and gets its NaN mean from the nanmean of NaNs. -/
theorem c10_nan_semantics (masked : Grid) (s : PlateSection) :
    (Fl.nan ∈ gridValues masked (sectionCells s) →
        Fl.nan ∈ sectionValid masked s
          ∧ (sectionValid masked s).length
              = (finites (sectionValid masked s)).length + countNan (sectionValid masked s)
          ∧ (finites (sectionValid masked s) ≠ [] →
              sectionSE masked s false Fl.nan
                  = Fl.val (Real.sqrt ((popVar (finites (sectionValid masked s)) : ℚ) : ℝ)
                      / Real.sqrt ((sectionValid masked s).length : ℝ))
                ∧ sectionMean masked s
                    = Fl.val (listMean (finites (sectionValid masked s)))))
      ∧ (sectionValid masked s ≠ [] → finites (sectionValid masked s) = [] →
          sectionMean masked s = nanmeanQ (sectionValid masked s)
            ∧ sectionMean masked s = Fl.nan) := by
  constructor
  · intro hmem
    have hval : Fl.nan ∈ sectionValid masked s := by
      unfold sectionValid dropZeros
      refine List.mem_filter.mpr ⟨hmem, ?_⟩
      simp
    have hne : sectionValid masked s ≠ [] := List.ne_nil_of_mem hval
    refine ⟨hval, length_eq_finites_add_countNan _, fun hfin => ⟨?_, ?_⟩⟩
    · have hv : nanvarQ (sectionValid masked s)
          = Fl.val (popVar (finites (sectionValid masked s))) := by
        unfold nanvarQ
        rw [if_neg hfin]
      rw [sectionSE_no_subtract, if_pos hne, stderrOf_eq hv]
    · unfold sectionMean
      rw [if_pos hne]
      unfold nanmeanQ
      rw [if_neg hfin]
  · intro hne hfin
    constructor
    · unfold sectionMean
      rw [if_pos hne]
    · unfold sectionMean nanmeanQ
      rw [if_pos hne, if_pos hfin]

/-- Claim C10, witness: the two-well section of nanGrid holds one NaN and
one reading of 5, so n is 2 and the reported error divides by sqrt(2); on
allNanGrid the same section survives the filter with no finite value and its
mean is NaN through the nanmean branch. -/
theorem c10_witness :
    Fl.nan ∈ gridValues nanGrid (sectionCells ((0, 0, 0, 1) : PlateSection))
      ∧ (sectionValid nanGrid (0, 0, 0, 1)).length = 2
      ∧ sectionSE nanGrid (0, 0, 0, 1) false Fl.nan
          = Fl.val (Real.sqrt ((popVar (finites (sectionValid nanGrid (0, 0, 0, 1))) : ℚ) : ℝ)
              / Real.sqrt ((sectionValid nanGrid (0, 0, 0, 1)).length : ℝ))
      ∧ sectionValid allNanGrid (0, 0, 0, 1) ≠ []
      ∧ finites (sectionValid allNanGrid (0, 0, 0, 1)) = []
      ∧ sectionMean allNanGrid (0, 0, 0, 1) = Fl.nan := by
  have h1 : Fl.nan ∈ gridValues nanGrid (sectionCells ((0, 0, 0, 1) : PlateSection)) := by
    with_unfolding_all decide
  have h2 : finites (sectionValid nanGrid (0, 0, 0, 1)) ≠ [] := by
    with_unfolding_all decide
  have h3 : (sectionValid nanGrid (0, 0, 0, 1)).length = 2 := by
    with_unfolding_all decide
  have h5 : sectionValid allNanGrid (0, 0, 0, 1) ≠ [] := by
    with_unfolding_all decide
  have h6 : finites (sectionValid allNanGrid (0, 0, 0, 1)) = [] := by
    with_unfolding_all decide
  exact ⟨h1, h3, (((c10_nan_semantics nanGrid (0, 0, 0, 1)).1 h1).2.2 h2).1, h5, h6,
    ((c10_nan_semantics allNanGrid (0, 0, 0, 1)).2 h5 h6).2⟩

end PlateAnalyzer
